import Mathlib

/-!
Verification of the Intervals.icu → GitHub/Local JSON export pipeline
(`sync.py` and its workflow variant `.github/workflows/sync.py`).

The Python program is shallowly embedded below:
* Python dicts of known shape become structures with `Option` fields
  (a missing key is `none`); `d["k"]` (which raises `KeyError`) becomes an
  `Option`/`Except` bind, `d.get("k", default)` becomes `Option.getD`.
* Python floats are idealised as exact rationals (`ℚ`) where the code is
  pure arithmetic, and as reals (`ℝ`) where `math.exp` is involved.
* `round(x, 2)` / `round(x, 0)` are modelled with Mathlib's `round`
  (round-half-up); Python uses round-half-even, which agrees everywhere
  except at exact ties, and no tie arises in any statement below.
* Python truthiness (`if x:` on numbers, strings, lists, `None`) is made
  explicit via small `pyTruthy…` helpers.
* A caught exception is modelled with `Except Unit` inputs: the embedded
  function receives either the fetched value or the fact that the fetch
  raised.
-/

namespace IntervalsSync

/-- `round(x, 2)` on rationals: round to 2 decimal places. -/
def round2q (x : ℚ) : ℚ := (round (100 * x) : ℤ) / 100

/-- `round(x, 0)` on rationals: round to an integer value. -/
def round0q (x : ℚ) : ℚ := (round x : ℤ)

/-- Python truthiness of an optional string (`None` and `""` are falsy). -/
def pyTruthyOptStr : Option String → Bool
  | none => false
  | some s => !(s == "")

/-- Python truthiness of an optional number (`None` and `0` are falsy). -/
def pyTruthyOptNum : Option ℚ → Bool
  | none => false
  | some q => decide (q ≠ 0)

/-- Python `pat in s` substring containment, over the character lists. -/
def strContains (s pat : String) : Bool :=
  (List.range (s.length + 1)).any
    (fun i => decide (((s.toList.drop i).take pat.length) = pat.toList))

/-! ### Raw activity records

The fields of an upstream activity record that the program reads
(`src/sync.py`, `_format_activities` and the quick-stat sums).  Every field
is optional: the upstream JSON is arbitrary-shaped. -/

structure Activity where
  id : Option String := none
  start_date_local : Option String := none
  type : Option String := none
  name : Option String := none
  moving_time : Option ℚ := none
  distance : Option ℚ := none
  icu_training_load : Option ℚ := none
  average_watts : Option ℚ := none
  icu_weighted_avg_watts : Option ℚ := none
  icu_average_hr : Option ℚ := none
  icu_hr_decoupling : Option ℚ := none
deriving DecidableEq, Repr

/-- One element of the list `_format_activities` returns. -/
structure FormattedActivity where
  id : String
  date : String
  type : String
  name : String
  duration_hours : ℚ
  distance_km : ℚ
  tss : Option ℚ
  avg_power : Option ℚ
  normalized_power : Option ℚ
  avg_hr : Option ℚ
  decoupling : Option ℚ
deriving DecidableEq, Repr

/-- The dict literal built for activity number `i` (0-based) inside
`_format_activities` (`src/sync.py` lines 148–160).  `act["id"]`,
`act["start_date_local"]` and `act["type"]` raise `KeyError` on a missing
key, modelled by `none`; `act.get(...)` never raises. -/
def format_activity (anonymize : Bool) (i : ℕ) (act : Activity) :
    Option FormattedActivity := do
  let idv ← if anonymize then some ("activity_" ++ toString (i + 1)) else act.id
  let date ← act.start_date_local
  let ty ← act.type
  some
    { id := idv
      date := date
      type := ty
      name :=
        if anonymize && !(strContains (act.type.getD "") "Virtual") then
          "Training Session"
        else act.name.getD ""
      duration_hours := round2q ((act.moving_time.getD 0) / 3600)
      distance_km := round2q ((act.distance.getD 0) / 1000)
      tss := act.icu_training_load
      avg_power := act.average_watts
      normalized_power := act.icu_weighted_avg_watts
      avg_hr := act.icu_average_hr
      decoupling := act.icu_hr_decoupling }

/-- The `for i, act in enumerate(activities)` loop, carrying the running
index `i`. -/
def format_activities_go (anonymize : Bool) (i : ℕ) :
    List Activity → Option (List FormattedActivity)
  | [] => some []
  | act :: rest => do
    let f ← format_activity anonymize i act
    let fs ← format_activities_go anonymize (i + 1) rest
    some (f :: fs)

/-- `_format_activities(activities, anonymize)` (`src/sync.py`
lines 145–162).  `none` models a `KeyError` escaping the loop. -/
def format_activities (activities : List Activity) (anonymize : Bool) :
    Option (List FormattedActivity) :=
  format_activities_go anonymize 0 activities

/-! ### Quick stats (`src/sync.py` lines 114–118) -/

/-- The `quick_stats` object of the summary document:
`total_training_hours`, `total_activities`, `total_tss`. -/
structure QuickStats where
  total_training_hours : ℚ
  total_activities : ℕ
  total_tss : ℚ
deriving DecidableEq, Repr

/-- `quick_stats` as computed in `collect_training_data`:
`round(sum(act.get("moving_time", 0)) / 3600, 2)`, `len(activities)`, and
`round(sum(act.get("icu_training_load", 0) for act in activities if
act.get("icu_training_load")), 0)`. -/
def quick_stats (activities : List Activity) : QuickStats :=
  { total_training_hours :=
      round2q ((activities.map (fun a => a.moving_time.getD 0)).sum / 3600)
    total_activities := activities.length
    total_tss :=
      round0q (((activities.filter
        (fun a => pyTruthyOptNum a.icu_training_load)).map
          (fun a => a.icu_training_load.getD 0)).sum) }

/-- Spec-side reading of `total_tss`: the sum of `icu_training_load` over
the activities where that field is present. -/
def totalTssSpec (activities : List Activity) : ℚ :=
  round0q ((activities.filterMap (fun a => a.icu_training_load)).sum)

/-! ### Fitness decay (`src/sync.py` lines 84–103)

`math.exp` forces these definitions onto `ℝ`, hence `noncomputable`. -/

/-- `round(x, 2)` on reals. -/
noncomputable def round2R (x : ℝ) : ℝ := (round (100 * x) : ℤ) / 100

/-- `ctl_decay = math.exp(-1/42)`. -/
noncomputable def ctl_decay : ℝ := Real.exp (-(1 / 42))

/-- `atl_decay = math.exp(-1/7)`. -/
noncomputable def atl_decay : ℝ := Real.exp (-(1 / 7))

/-- The fields the decay step reads off yesterday's wellness record. -/
structure WellnessY where
  ctl : Option ℝ := none
  atl : Option ℝ := none
  rampRate : Option ℝ := none

/-- `round(v * d, 2) if v else None` applied to the optional yesterday
value `v` (`src/sync.py` lines 97–99).  Note the Python truthiness test:
both `None` and `0.0` give `None`. -/
noncomputable def decayVal (y : Option ℝ) (d : ℝ) : Option ℝ :=
  match y with
  | none => none
  | some v => if v = 0 then none else some (round2R (v * d))

/-- The fitness part of `current_status` in the summary document. -/
structure FitnessSnapshot where
  ctl : Option ℝ
  atl : Option ℝ
  tsb : Option ℝ
  ramp_rate : Option ℝ

/-- The yesterday-fetch-and-decay step of `collect_training_data`
(`src/sync.py` lines 85–103).  The input is the result of the wellness
fetch for yesterday: `.error ()` when the fetch raised (the bare `except:`
then sets `ctl = atl = ramp_rate = None`), `.ok ws` with the returned
record list otherwise.  `yesterday_wellness[0] if yesterday_wellness
else {}` takes the head of a non-empty list and the all-missing record
otherwise; `tsb` is computed after the `try` block. -/
noncomputable def fitnessStep (fetch : Except Unit (List WellnessY)) :
    FitnessSnapshot :=
  let car : Option ℝ × Option ℝ × Option ℝ :=
    match fetch with
    | .error _ => (none, none, none)
    | .ok ws =>
      let ydata : WellnessY :=
        match ws with
        | [] => {}
        | y :: _ => y
      (decayVal ydata.ctl ctl_decay, decayVal ydata.atl atl_decay,
        decayVal ydata.rampRate ctl_decay)
  let tsb : Option ℝ :=
    match car.1, car.2.1 with
    | some c, some a => some (round2R (c - a))
    | _, _ => none
  ⟨car.1, car.2.1, tsb, car.2.2⟩

/-! ### Latest workout (`src/sync.py` lines 44–61) -/

/-- A minimal JSON value type for the upstream response shape. -/
inductive JVal where
  | jnull : JVal
  | jbool : Bool → JVal
  | jnum : ℚ → JVal
  | jstr : String → JVal
  | jarr : List JVal → JVal
  | jobj : List (String × JVal) → JVal

/-- `collect_latest_workout` (`src/sync.py` lines 44–61).  The input is
the result of the activities fetch: `.error ()` when `_intervals_get`
raised (the `except` prints a warning and falls through to `return {}`).
`if activities and isinstance(activities, list): return activities[0]`
needs a truthy (non-empty) list; `elif isinstance(activities, dict)`
returns the object itself; everything else reaches `return {}`. -/
def collect_latest_workout (fetch : Except Unit JVal) : JVal :=
  match fetch with
  | .error _ => .jobj []
  | .ok (.jarr (x :: _)) => x
  | .ok (.jobj kvs) => .jobj kvs
  | .ok _ => .jobj []

/-! ### Remote publish (`src/sync.py` lines 176–204 and the workflow
variant `.github/workflows/sync.py` lines 181–221) -/

/-- The `current_sha` computed by `publish_to_github` (`src/sync.py`
lines 187–193).  The input is the existence-lookup GET: `.error ()` when
`requests.get` raised, `.ok (status, shaField)` otherwise, where
`shaField` is the `"sha"` entry of the JSON body when present.  The bare
`except: pass` also swallows the `KeyError` from `response.json()["sha"]`,
so a 200 body without `"sha"` leaves `current_sha = None`. -/
def currentSha (lookup : Except Unit (ℕ × Option String)) : Option String :=
  match lookup with
  | .error _ => none
  | .ok (status, shaField) =>
    if status = 200 then
      match shaField with
      | some s => some s
      | none => none
    else none

/-- The body of the PUT request. -/
structure Payload where
  message : String
  content : String
  branch : String
  sha : Option String
deriving DecidableEq, Repr

/-- The payload built in `publish_to_github` (`src/sync.py`
lines 198–200): `{"message": …, "content": …, "branch": "main"}` plus
`payload["sha"] = current_sha` guarded by `if current_sha:` — Python
truthiness, so `None` and the empty string both leave `sha` out. -/
def buildPayload (message content : String) (cur : Option String) : Payload :=
  { message := message
    content := content
    branch := "main"
    sha := if pyTruthyOptStr cur then cur else none }

/-- The raw URL `publish_to_github` returns on success. -/
def rawUrl (repo filepath : String) : String :=
  "https://raw.githubusercontent.com/" ++ repo ++ "/main/" ++ filepath

/-- The tail of `publish_to_github` (`src/sync.py` lines 202–204):
`response.raise_for_status()` raises exactly when
`400 <= status_code < 600`; otherwise the raw URL is returned. -/
def publish_put (putStatus : ℕ) (repo filepath : String) :
    Except Unit String :=
  if 400 ≤ putStatus ∧ putStatus < 600 then .error ()
  else .ok (rawUrl repo filepath)

/-- The tail of the workflow variant's `publish_to_github`
(`.github/workflows/sync.py` lines 213–221): statuses 200 and 201 return
the pushed file's `html_url`; every other status prints a failure message
and returns `""` — it never raises. -/
def publish_put_workflow (putStatus : ℕ) (htmlUrl : String) :
    Except Unit String :=
  if putStatus = 200 ∨ putStatus = 201 then .ok htmlUrl else .ok ""

/-! ### Entry point (`src/sync.py` lines 212–248) -/

/-- The parsed command-line flags, before argparse defaulting: `none`
means the flag was not given.  `anonymize_flag` records whether
`--anonymize` appeared on the command line. -/
structure Args where
  athlete_id : Option String := none
  intervals_key : Option String := none
  github_token : Option String := none
  github_repo : Option String := none
  days : Option ℤ := none
  anonymize_flag : Bool := false
  output : Option String := none

/-- The optional `.sync_config.json` contents. -/
structure Config where
  athlete_id : Option String := none
  intervals_key : Option String := none
  github_token : Option String := none
  github_repo : Option String := none
  days : Option ℤ := none
  anonymize : Option Bool := none

/-- The effective configuration `main` runs with. -/
structure Resolved where
  athlete_id : Option String
  intervals_key : Option String
  github_token : Option String
  github_repo : Option String
  days : ℤ
  anonymize : Bool
deriving DecidableEq, Repr

/-- Python `a or b` on optional strings (`args.x or config.get("x")`):
`b` when `a` is `None` or `""`. -/
def pyOr (a b : Option String) : Option String :=
  if pyTruthyOptStr a then a else b

/-- Configuration resolution in `main` (`src/sync.py` lines 213–238).
The four credential strings fall back from flag to config file; `days`
is `args.days` with the argparse default 7 (the config file is never
consulted); `anonymize` comes from
`add_argument("--anonymize", action="store_true", default=True)`, which
yields `True` whether or not the flag is given (and never reads the
config file). -/
def resolveConfig (args : Args) (config : Config) : Resolved :=
  { athlete_id := pyOr args.athlete_id config.athlete_id
    intervals_key := pyOr args.intervals_key config.intervals_key
    github_token := pyOr args.github_token config.github_token
    github_repo := pyOr args.github_repo config.github_repo
    days := args.days.getD 7
    anonymize := if args.anonymize_flag then true else true }

/-- Which document is being delivered. -/
inductive DocId where
  | summary : DocId
  | workout : DocId
deriving DecidableEq, Repr

/-- One delivery the entry point performs. -/
inductive PublishAction where
  | saveLocal : String → DocId → PublishAction
  | publishRemote : String → DocId → PublishAction
deriving DecidableEq, Repr

/-- The delivery dispatch at the end of `main` (`src/sync.py`
lines 243–248): `if args.output:` (truthiness — any non-empty string)
selects two `save_to_file` calls with the fixed paths `"latest.json"`
and `"latest-workout.json"`; otherwise two `publish_to_github` calls
with the same fixed paths.  `args.output` itself is used only as the
mode switch. -/
def mainDispatch (output : Option String) : List PublishAction :=
  if pyTruthyOptStr output then
    [.saveLocal "latest.json" .summary,
     .saveLocal "latest-workout.json" .workout]
  else
    [.publishRemote "latest.json" .summary,
     .publishRemote "latest-workout.json" .workout]

/-! ## Claims -/

/-- C5: `collect_latest_workout` returns the first element of a non-empty
list response, the response itself when it is a single object, and the
empty result `{}` otherwise — including the empty list and non-list,
non-object bodies — and a fetch failure degrades to `{}` instead of
aborting the run. -/
theorem collect_latest_workout_cases (x : JVal) (xs : List JVal)
    (kvs : List (String × JVal)) (b : Bool) (q : ℚ) (s : String) :
    collect_latest_workout (.ok (.jarr (x :: xs))) = x ∧
    collect_latest_workout (.ok (.jobj kvs)) = .jobj kvs ∧
    collect_latest_workout (.ok (.jarr [])) = .jobj [] ∧
    collect_latest_workout (.ok .jnull) = .jobj [] ∧
    collect_latest_workout (.ok (.jbool b)) = .jobj [] ∧
    collect_latest_workout (.ok (.jnum q)) = .jobj [] ∧
    collect_latest_workout (.ok (.jstr s)) = .jobj [] ∧
    collect_latest_workout (.error ()) = .jobj [] :=
  ⟨rfl, rfl, rfl, rfl, rfl, rfl, rfl, rfl⟩

/-- C6 counterexample: the existence lookup can return HTTP 200 (the
object exists) with an empty `sha` string, and then the PUT payload omits
the `sha` field (`if current_sha:` is false on `""`), contrary to the
claim that an existing object always gets its observed version token
echoed back. -/
theorem buildPayload_empty_sha_omitted :
    (buildPayload "m" "c" (currentSha (.ok (200, some "")))).sha = none ∧
    (buildPayload "m" "c" (currentSha (.ok (200, some "")))).sha
      ≠ some "" := by
  constructor
  · rfl
  · intro h
    simp [buildPayload, currentSha, pyTruthyOptStr] at h

/-- C6 (amended): the PUT payload carries the `sha` field exactly when the
existence lookup returned HTTP 200 with a non-empty `sha`; a non-200
lookup, a 200 body without a `sha` entry, an empty `sha`, and a lookup
that raised all leave the field out, and the raising lookup is non-fatal
(the payload is still built). -/
theorem publish_sha_policy (m c s : String) (st : ℕ) (body : Option String) :
    (st = 200 → s ≠ "" →
      (buildPayload m c (currentSha (.ok (st, some s)))).sha = some s) ∧
    (st ≠ 200 →
      (buildPayload m c (currentSha (.ok (st, body)))).sha = none) ∧
    (buildPayload m c (currentSha (.ok (st, none)))).sha = none ∧
    (buildPayload m c (currentSha (.error ()))).sha = none := by
  refine ⟨fun h200 hs => ?_, fun hne => ?_, ?_, ?_⟩
  · subst h200
    simp [buildPayload, currentSha, pyTruthyOptStr, hs]
  · simp [buildPayload, currentSha, pyTruthyOptStr, hne]
  · by_cases h200 : st = 200 <;>
      simp [buildPayload, currentSha, pyTruthyOptStr, h200]
  · rfl

/-- C6 witness: a lookup that found the object with sha `"abc123"` puts
`"abc123"` into the payload, and a failed lookup omits the field. -/
theorem publish_sha_policy_witness :
    (buildPayload "m" "c" (currentSha (.ok (200, some "abc123")))).sha
        = some "abc123" ∧
    (buildPayload "m" "c" (currentSha (.error ()))).sha = none :=
  ⟨(publish_sha_policy "m" "c" "abc123" 200 none).1 rfl (by decide),
   (publish_sha_policy "m" "c" "abc123" 200 none).2.2.2⟩

/-- C7 counterexample: the workflow variant's publisher
(`.github/workflows/sync.py` lines 213–221) does NOT raise on a failed
PUT: at status 500 it returns normally with the empty string. -/
theorem publish_put_workflow_no_raise :
    publish_put_workflow 500 "https://example.test/u" = .ok "" ∧
    publish_put_workflow 500 "https://example.test/u" ≠ .error () := by
  constructor
  · rfl
  · intro h
    simp [publish_put_workflow] at h

/-- C7 (amended): the main publisher (`src/sync.py`,
`response.raise_for_status()`) raises exactly when the PUT status is in
400–599 and returns the raw URL otherwise, while the workflow variant
never raises: it returns the pushed `html_url` on 200/201 and `""` on
every other status. -/
theorem publish_error_policy (st : ℕ) (repo filepath htmlUrl : String) :
    (400 ≤ st ∧ st < 600 → publish_put st repo filepath = .error ()) ∧
    (¬(400 ≤ st ∧ st < 600) →
      publish_put st repo filepath = .ok (rawUrl repo filepath)) ∧
    (∃ r : String, publish_put_workflow st htmlUrl = .ok r) := by
  refine ⟨fun h => ?_, fun h => ?_, ?_⟩
  · simp [publish_put, h]
  · simp [publish_put, h]
  · by_cases h : st = 200 ∨ st = 201
    · exact ⟨htmlUrl, by simp [publish_put_workflow, h]⟩
    · exact ⟨"", by simp [publish_put_workflow, h]⟩

/-- C7 witness: a 404 PUT makes the main publisher raise, and a 200 PUT
returns the raw URL. -/
theorem publish_error_policy_witness :
    publish_put 404 "me/repo" "latest.json" = .error () ∧
    publish_put 200 "me/repo" "latest.json"
      = .ok (rawUrl "me/repo" "latest.json") :=
  ⟨(publish_error_policy 404 "me/repo" "latest.json" "u").1 (by decide),
   (publish_error_policy 200 "me/repo" "latest.json" "u").2.1 (by decide)⟩

/-- C9 counterexample: with no `--days` flag and a config file carrying
`days = 14`, the run still uses 7 — `main` never consults the config file
for `days` (and `anonymize` is always true, whatever the config says). -/
theorem resolveConfig_ignores_config_days :
    (resolveConfig {} { days := some 14, anonymize := some false }).days = 7
      ∧ (7 : ℤ) ≠ 14 := by
  constructor
  · rfl
  · decide

/-- C9 (amended): the four credential strings (athlete id, API key,
GitHub token, GitHub repo) resolve from the command-line flag when it is
truthy and fall back to the config file otherwise; `days` resolves from
the flag with argparse default 7, never from the config file; and
`anonymize` is always true (the `store_true` flag with `default=True`
cannot express false, and the config file is never read for it). -/
theorem resolveConfig_policy (args : Args) (config : Config) :
    (pyTruthyOptStr args.athlete_id = true →
      (resolveConfig args config).athlete_id = args.athlete_id) ∧
    (pyTruthyOptStr args.athlete_id = false →
      (resolveConfig args config).athlete_id = config.athlete_id) ∧
    (pyTruthyOptStr args.intervals_key = true →
      (resolveConfig args config).intervals_key = args.intervals_key) ∧
    (pyTruthyOptStr args.intervals_key = false →
      (resolveConfig args config).intervals_key = config.intervals_key) ∧
    (pyTruthyOptStr args.github_token = true →
      (resolveConfig args config).github_token = args.github_token) ∧
    (pyTruthyOptStr args.github_token = false →
      (resolveConfig args config).github_token = config.github_token) ∧
    (pyTruthyOptStr args.github_repo = true →
      (resolveConfig args config).github_repo = args.github_repo) ∧
    (pyTruthyOptStr args.github_repo = false →
      (resolveConfig args config).github_repo = config.github_repo) ∧
    (resolveConfig args config).days = args.days.getD 7 ∧
    (resolveConfig args config).anonymize = true := by
  refine ⟨fun h => ?_, fun h => ?_, fun h => ?_, fun h => ?_, fun h => ?_,
    fun h => ?_, fun h => ?_, fun h => ?_, rfl,
    by simp [resolveConfig]⟩ <;>
    simp [resolveConfig, pyOr, h]

/-- C9 witness: a given `--athlete-id` wins over the config file; an
absent one falls back to the config file. -/
theorem resolveConfig_policy_witness :
    (resolveConfig { athlete_id := some "me" }
        { athlete_id := some "cfg" }).athlete_id = some "me" ∧
    (resolveConfig {} { athlete_id := some "cfg" }).athlete_id
        = some "cfg" :=
  ⟨(resolveConfig_policy { athlete_id := some "me" }
      { athlete_id := some "cfg" }).1 (by decide),
   (resolveConfig_policy {} { athlete_id := some "cfg" }).2.1 (by decide)⟩

/-- C10: any truthy (non-empty) `--output` value selects local mode with
the two fixed paths `latest.json` and `latest-workout.json`; the value of
the string never appears in the actions, so it is only a mode switch. -/
theorem mainDispatch_local (s : String) (hs : s ≠ "") :
    mainDispatch (some s) =
      [.saveLocal "latest.json" .summary,
       .saveLocal "latest-workout.json" .workout] := by
  simp [mainDispatch, pyTruthyOptStr, hs]

/-- C10 witness: `--output out.json` writes to `latest.json` and
`latest-workout.json`, not to `out.json`. -/
theorem mainDispatch_local_witness :
    mainDispatch (some "out.json") =
      [.saveLocal "latest.json" .summary,
       .saveLocal "latest-workout.json" .workout] :=
  mainDispatch_local "out.json" (by decide)

/-- `pyTruthyOptNum` on a missing value. -/
lemma pyTruthyOptNum_none : pyTruthyOptNum (none : Option ℚ) = false := rfl

/-- `pyTruthyOptNum` on a present value. -/
lemma pyTruthyOptNum_some (q : ℚ) :
    pyTruthyOptNum (some q) = decide (q ≠ 0) := rfl

/-- The truthiness filter in `total_tss` drops exactly the missing and the
zero loads, and a zero load contributes nothing to the sum, so the code's
sum equals the sum over the present loads. -/
lemma sum_filter_truthy_load (l : List Activity) :
    ((l.filter (fun a => pyTruthyOptNum a.icu_training_load)).map
      (fun a => a.icu_training_load.getD 0)).sum
      = (l.filterMap (fun a => a.icu_training_load)).sum := by
  induction l with
  | nil => simp
  | cons a t ih =>
    cases h : a.icu_training_load with
    | none =>
      simp [List.filter_cons, List.filterMap_cons, h, pyTruthyOptNum_none, ih]
    | some q =>
      by_cases hq : q = 0
      · subst hq
        simp [List.filter_cons, List.filterMap_cons, h, pyTruthyOptNum_some,
          ih]
      · simp [List.filter_cons, List.filterMap_cons, h, pyTruthyOptNum_some,
          hq, ih]

/-- The first example activity of the end-to-end scenario:
`{moving_time: 3600, icu_training_load: 50}`. -/
def scenarioAct1 : Activity :=
  { moving_time := some 3600, icu_training_load := some 50 }

/-- The second example activity of the end-to-end scenario:
`{moving_time: 1800, icu_training_load: 25}`. -/
def scenarioAct2 : Activity :=
  { moving_time := some 1800, icu_training_load := some 25 }

/-- C8: the quick stats are `round(Σ moving_time / 3600, 2)` (missing
moving times default to 0), the activity count, and `round(Σ of the
present training loads, 0)`; on the scenario activities they come out as
1.5 hours, 2 activities, 75 TSS. -/
theorem quick_stats_correct (activities : List Activity) :
    quick_stats activities =
      { total_training_hours :=
          round2q ((activities.map (fun a => a.moving_time.getD 0)).sum
            / 3600)
        total_activities := activities.length
        total_tss := totalTssSpec activities } ∧
    quick_stats [scenarioAct1, scenarioAct2] =
      { total_training_hours := 1.5
        total_activities := 2
        total_tss := 75 } := by
  constructor
  · simp [quick_stats, totalTssSpec, sum_filter_truthy_load]
  · simp only [quick_stats, QuickStats.mk.injEq]
    refine ⟨?_, by rfl, ?_⟩
    · simp only [scenarioAct1, scenarioAct2, List.map_cons, List.map_nil,
        List.sum_cons, List.sum_nil, Option.getD_some]
      norm_num [round2q, round_eq]
    · simp only [scenarioAct1, scenarioAct2, List.filter_cons,
        List.filter_nil, pyTruthyOptNum]
      norm_num [round0q, round_eq]

/-! ### Formatter claims -/

/-- `"Virtual" in "Ride"` is false. -/
lemma strContains_ride : strContains "Ride" "Virtual" = false := by decide

/-- `"Virtual" in "VirtualRide"` is true. -/
lemma strContains_vride : strContains "VirtualRide" "Virtual" = true := by
  decide

/-- The fields of a successful `format_activity` under `anonymize=True`:
the id is the synthetic 1-indexed label and the name is the placeholder
exactly when the type does not contain `"Virtual"`. -/
lemma format_activity_anon_fields (i : ℕ) (act : Activity)
    (f : FormattedActivity) (h : format_activity true i act = some f) :
    f.id = "activity_" ++ toString (i + 1) ∧
    f.name = (if !(strContains (act.type.getD "") "Virtual") then
      "Training Session" else act.name.getD "") := by
  obtain ⟨aid, asd, aty, anm, amt, adi, atl, aaw, anw, ahr, adc⟩ := act
  cases asd <;> cases aty <;>
    first
      | (injection h with h; subst h; exact ⟨rfl, rfl⟩)
      | injection h

/-- Unrolling the `enumerate` loop: a successful run pairs the `i`-th
input with the `i`-th output, formatted at index `start + i`. -/
lemma format_activities_go_ok (anonymize : Bool) (s : ℕ)
    (acts : List Activity) (fs : List FormattedActivity)
    (h : format_activities_go anonymize s acts = some fs) :
    fs.length = acts.length ∧
    ∀ i, i < acts.length → ∃ act f, acts.get? i = some act ∧
      fs.get? i = some f ∧ format_activity anonymize (s + i) act = some f := by
  induction acts generalizing s fs with
  | nil =>
    simp only [format_activities_go, Option.some.injEq] at h
    subst h
    exact ⟨rfl, fun i hi => absurd hi (by simp)⟩
  | cons a t ih =>
    rcases hf : format_activity anonymize s a with _ | f
    · simp [format_activities_go, hf] at h
    rcases hg : format_activities_go anonymize (s + 1) t with _ | fs'
    · simp [format_activities_go, hf, hg] at h
    simp only [format_activities_go, hf, hg, Option.bind_eq_bind,
      Option.some_bind, Option.some.injEq] at h
    subst h
    obtain ⟨hlen, hidx⟩ := ih (s + 1) fs' hg
    refine ⟨by simp [hlen], fun i hi => ?_⟩
    cases i with
    | zero => exact ⟨a, f, rfl, rfl, by simpa using hf⟩
    | succ j =>
      obtain ⟨act, f', hact, hf', hfa⟩ := hidx j (by simpa using hi)
      exact ⟨act, f', by simpa using hact, by simpa using hf',
        by rw [show s + (j + 1) = s + 1 + j by omega]; exact hfa⟩

/-- C3: with `anonymize=True`, the `i`-th formatted activity (0-based `i`)
gets id `activity_<i+1>`, its name is the placeholder when the type is
`"Ride"`, and its real name survives when the type is `"VirtualRide"`. -/
theorem format_activities_anonymize_policy (acts : List Activity)
    (fs : List FormattedActivity) (i : ℕ) (act : Activity)
    (f : FormattedActivity) (hok : format_activities acts true = some fs)
    (hact : acts.get? i = some act) (hf : fs.get? i = some f) :
    f.id = "activity_" ++ toString (i + 1) ∧
    (act.type = some "Ride" → f.name = "Training Session") ∧
    (act.type = some "VirtualRide" → f.name = act.name.getD "") := by
  obtain ⟨hlen, hidx⟩ := format_activities_go_ok true 0 acts fs hok
  obtain ⟨act', f', hact', hf', hfa⟩ :=
    hidx i (by rcases List.get?_eq_some.mp hact with ⟨hi, _⟩; exact hi)
  rw [hact'] at hact
  rw [hf'] at hf
  have ha : act' = act := by injection hact
  have hb : f' = f := by injection hf
  rw [ha, hb, Nat.zero_add] at hfa
  obtain ⟨hid, hname⟩ := format_activity_anon_fields i act f hfa
  refine ⟨hid, fun hty => ?_, fun hty => ?_⟩
  · rw [hname, hty]
    simp [strContains_ride]
  · rw [hname, hty]
    simp [strContains_vride]

/-- A fully populated outdoor ride, used as a concrete check. -/
def rideEx : Activity :=
  { id := some "i1001", start_date_local := some "2024-05-01T08:00:00"
    type := some "Ride", name := some "Hill Repeats"
    moving_time := some 3600, distance := some 30000
    icu_training_load := some 80, average_watts := some 200
    icu_weighted_avg_watts := some 215, icu_average_hr := some 145
    icu_hr_decoupling := some 4 }

/-- A fully populated virtual ride, used as a concrete check. -/
def vrideEx : Activity :=
  { id := some "i1002", start_date_local := some "2024-05-02T18:00:00"
    type := some "VirtualRide", name := some "Zwift Race"
    moving_time := some 1800, distance := some 15000
    icu_training_load := some 60, average_watts := some 230
    icu_weighted_avg_watts := some 240, icu_average_hr := some 155
    icu_hr_decoupling := some 2 }

/-- The two-activity demo list: one outdoor ride, one virtual ride. -/
def demoActs : List Activity := [rideEx, vrideEx]

/-- The anonymized formatting of `demoActs`. -/
def demoFs : List FormattedActivity :=
  (format_activities demoActs true).getD []

/-- An all-blank formatted activity, used only as a `getD` fallback. -/
def blankF : FormattedActivity :=
  ⟨"", "", "", "", 0, 0, none, none, none, none, none⟩

/-- The second (virtual-ride) entry of `demoFs`. -/
def demoF1 : FormattedActivity := (demoFs.get? 1).getD blankF

/-- C3 witness: in the demo list the virtual ride at position 1 keeps its
real name `"Zwift Race"` and gets id `activity_2`. -/
theorem format_activities_anonymize_policy_witness :
    demoF1.id = "activity_" ++ toString (1 + 1) ∧
    (vrideEx.type = some "Ride" → demoF1.name = "Training Session") ∧
    (vrideEx.type = some "VirtualRide" →
      demoF1.name = vrideEx.name.getD "") :=
  format_activities_anonymize_policy demoActs demoFs 1 vrideEx demoF1
    rfl rfl rfl

/-- A ride with every key present except `icu_training_load`. -/
def noLoadAct : Activity :=
  { id := some "i2001", start_date_local := some "2024-06-01T09:00:00"
    type := some "Ride", name := some "Morning Spin"
    moving_time := some 3600, distance := some 10000
    icu_training_load := none, average_watts := some 180
    icu_weighted_avg_watts := some 190, icu_average_hr := some 140
    icu_hr_decoupling := some 3 }

/-- The formatted version of `noLoadAct`. -/
def noLoadF : FormattedActivity :=
  (format_activity true 0 noLoadAct).getD blankF

/-- C4 counterexample: a missing `icu_training_load` does NOT default
to 0 — the formatted `tss` is null (`act.get("icu_training_load")` has no
default), contradicting the claim that every missing numeric source field
defaults to 0. -/
theorem format_activity_missing_load_counterexample :
    format_activity true 0 noLoadAct = some noLoadF ∧
    noLoadF.tss = none ∧ noLoadF.tss ≠ some 0 := by
  refine ⟨rfl, rfl, ?_⟩
  decide

/-- C4 (amended): only `moving_time` and `distance` default to 0 before
unit conversion; the five pass-through numerics (`icu_training_load`,
`average_watts`, `icu_weighted_avg_watts`, `icu_average_hr`,
`icu_hr_decoupling`) stay null when missing; a missing `name` defaults to
the empty string; and a missing `start_date_local`, `type`, or (without
anonymization) `id` makes the formatter raise `KeyError` instead of
defaulting. -/
theorem format_activity_defaults (anonymize : Bool) (i : ℕ)
    (act : Activity) :
    (∀ f, format_activity anonymize i act = some f →
      f.duration_hours = round2q (act.moving_time.getD 0 / 3600) ∧
      f.distance_km = round2q (act.distance.getD 0 / 1000) ∧
      f.tss = act.icu_training_load ∧
      f.avg_power = act.average_watts ∧
      f.normalized_power = act.icu_weighted_avg_watts ∧
      f.avg_hr = act.icu_average_hr ∧
      f.decoupling = act.icu_hr_decoupling ∧
      f.name = (if anonymize && !(strContains (act.type.getD "") "Virtual")
        then "Training Session" else act.name.getD "")) ∧
    (format_activity anonymize i act = none ↔
      act.start_date_local = none ∨ act.type = none ∨
        (anonymize = false ∧ act.id = none)) := by
  obtain ⟨aid, asd, aty, anm, amt, adi, atl, aaw, anw, ahr, adc⟩ := act
  constructor
  · intro f h
    cases anonymize <;> cases aid <;> cases asd <;> cases aty <;>
      first
        | (injection h with h; subst h;
            exact ⟨rfl, rfl, rfl, rfl, rfl, rfl, rfl, rfl⟩)
        | injection h
  · cases anonymize <;> cases aid <;> cases asd <;> cases aty <;>
      simp [format_activity]

/-- C4 witness: on `noLoadAct` (all keys present except the training
load) the formatted output carries `duration_hours = round(3600/3600, 2)`
and a null `tss`. -/
theorem format_activity_defaults_witness :
    noLoadF.duration_hours = round2q (noLoadAct.moving_time.getD 0 / 3600) ∧
    noLoadF.tss = noLoadAct.icu_training_load :=
  ⟨((format_activity_defaults true 0 noLoadAct).1 noLoadF rfl).1,
   ((format_activity_defaults true 0 noLoadAct).1 noLoadF rfl).2.2.1⟩

/-! ### Fitness-decay claims -/

/-- Order-3 Taylor bounds on `ctl_decay = exp(-1/42) ≈ 0.976471`. -/
lemma ctl_decay_bounds : (0.9764 : ℝ) ≤ ctl_decay ∧ ctl_decay ≤ 0.97648 := by
  have habs : |(-(1 / 42) : ℝ)| = 1 / 42 := by
    rw [abs_neg, abs_of_nonneg (show (0 : ℝ) ≤ 1 / 42 by norm_num)]
  have hx : |(-(1 / 42) : ℝ)| ≤ 1 := by
    rw [habs]
    norm_num
  have h := @Real.exp_bound (-(1 / 42)) hx 3 (by norm_num)
  have hs : ∑ m ∈ Finset.range 3, (-(1 / 42) : ℝ) ^ m / m.factorial
      = 3445 / 3528 := by
    rw [Finset.sum_range_succ, Finset.sum_range_succ, Finset.sum_range_succ,
      Finset.sum_range_zero]
    norm_num [Nat.factorial]
  rw [hs, habs, abs_sub_le_iff] at h
  norm_num [show Nat.factorial 3 = 6 from rfl] at h
  unfold ctl_decay
  constructor <;> linarith [h.1, h.2]

/-- Rounding `50 · exp(-1/42) ≈ 48.8235` to two decimals gives `48.82`. -/
lemma round2R_fifty : round2R (50 * ctl_decay) = 48.82 := by
  obtain ⟨h1, h2⟩ := ctl_decay_bounds
  have hr : round (100 * (50 * ctl_decay)) = (4882 : ℤ) := by
    rw [round_eq, Int.floor_eq_iff]
    constructor
    · push_cast
      linarith
    · push_cast
      linarith
  simp only [round2R]
  rw [hr]
  norm_num

/-- C1 counterexample: a present yesterday `ctl` of `0.0` is decayed to
null (`if yesterday_ctl` is false on `0.0`), not to
`round(0 * exp(-1/42), 2) = 0.0` as the claimed formula requires. -/
theorem fitness_decay_zero_counterexample :
    (fitnessStep (.ok [(⟨some 0, none, none⟩ : WellnessY)])).ctl = none ∧
    round2R (0 * ctl_decay) = 0 ∧
    (fitnessStep (.ok [(⟨some 0, none, none⟩ : WellnessY)])).ctl
      ≠ some (round2R (0 * ctl_decay)) := by
  refine ⟨?_, ?_, ?_⟩
  · simp [fitnessStep, decayVal]
  · simp [round2R]
  · simp [fitnessStep, decayVal]

/-- C1 (amended): for a present, non-zero yesterday value the decayed
snapshot values follow the claimed formulas
`round(v * exp(-1/42), 2)` (ctl and rampRate) and `round(v * exp(-1/7), 2)`
(atl); a missing (or zero) yesterday value yields null; and
`ctl_yesterday = 50.0` yields `ctl_today = 48.82`. -/
theorem fitness_decay_formula (c a r : ℝ) (rest : List WellnessY)
    (hc : c ≠ 0) (ha : a ≠ 0) (hr : r ≠ 0) :
    (fitnessStep (.ok ((⟨some c, some a, some r⟩ : WellnessY) :: rest))).ctl
        = some (round2R (c * Real.exp (-(1 / 42)))) ∧
    (fitnessStep (.ok ((⟨some c, some a, some r⟩ : WellnessY) :: rest))).atl
        = some (round2R (a * Real.exp (-(1 / 7)))) ∧
    (fitnessStep
        (.ok ((⟨some c, some a, some r⟩ : WellnessY) :: rest))).ramp_rate
        = some (round2R (r * Real.exp (-(1 / 42)))) ∧
    (fitnessStep (.ok ((⟨none, none, none⟩ : WellnessY) :: rest))).ctl
        = none ∧
    (fitnessStep (.ok ((⟨some 50, none, none⟩ : WellnessY) :: rest))).ctl
        = some 48.82 := by
  refine ⟨?_, ?_, ?_, ?_, ?_⟩
  · simp [fitnessStep, decayVal, ctl_decay, hc]
  · simp [fitnessStep, decayVal, atl_decay, ha]
  · simp [fitnessStep, decayVal, ctl_decay, hr]
  · simp [fitnessStep, decayVal]
  · have h50 : (50 : ℝ) ≠ 0 := by norm_num
    simp [fitnessStep, decayVal, h50, round2R_fifty]

/-- C1 witness: concrete yesterday values 2, 3, 4 (and the 50.0 → 48.82
check). -/
theorem fitness_decay_formula_witness :
    (fitnessStep
        (.ok ((⟨some 2, some 3, some 4⟩ : WellnessY) :: []))).ctl
        = some (round2R (2 * Real.exp (-(1 / 42)))) ∧
    (fitnessStep
        (.ok ((⟨some 2, some 3, some 4⟩ : WellnessY) :: []))).atl
        = some (round2R (3 * Real.exp (-(1 / 7)))) ∧
    (fitnessStep
        (.ok ((⟨some 2, some 3, some 4⟩ : WellnessY) :: []))).ramp_rate
        = some (round2R (4 * Real.exp (-(1 / 42)))) ∧
    (fitnessStep (.ok ((⟨none, none, none⟩ : WellnessY) :: []))).ctl
        = none ∧
    (fitnessStep (.ok ((⟨some 50, none, none⟩ : WellnessY) :: []))).ctl
        = some 48.82 :=
  fitness_decay_formula 2 3 4 [] (by norm_num) (by norm_num) (by norm_num)

/-- The snapshot's `tsb` is determined by its `ctl` and `atl` exactly as
the line `tsb = round(ctl - atl, 2) if (ctl is not None and atl is not
None) else None` computes it. -/
lemma fitnessStep_tsb_eq (fetch : Except Unit (List WellnessY)) :
    (fitnessStep fetch).tsb =
      match (fitnessStep fetch).ctl, (fitnessStep fetch).atl with
      | some c, some a => some (round2R (c - a))
      | _, _ => none := rfl

/-- C2: an absent yesterday record, or one lacking `ctl`, nulls both
`ctl` and `tsb`; `tsb = round(ctl - atl, 2)` when both are present and
null otherwise; and an exception in the fetch-and-decay step nulls all
four derived values. -/
theorem fitness_null_policy :
    (∀ ws : List WellnessY,
      ws = [] ∨ (∃ y rest, ws = y :: rest ∧ y.ctl = none) →
        (fitnessStep (.ok ws)).ctl = none ∧
        (fitnessStep (.ok ws)).tsb = none) ∧
    (∀ fetch : Except Unit (List WellnessY),
      (∀ c a : ℝ, (fitnessStep fetch).ctl = some c →
        (fitnessStep fetch).atl = some a →
        (fitnessStep fetch).tsb = some (round2R (c - a))) ∧
      ((fitnessStep fetch).ctl = none ∨ (fitnessStep fetch).atl = none →
        (fitnessStep fetch).tsb = none)) ∧
    fitnessStep (.error ()) = ⟨none, none, none, none⟩ := by
  refine ⟨?_, ?_, rfl⟩
  · rintro ws (rfl | ⟨y, rest, rfl, hctl⟩)
    · exact ⟨rfl, rfl⟩
    · constructor
      · simp [fitnessStep, decayVal, hctl]
      · rw [fitnessStep_tsb_eq]
        simp [fitnessStep, decayVal, hctl]
  · intro fetch
    constructor
    · intro c a hc ha
      rw [fitnessStep_tsb_eq, hc, ha]
    · intro hn
      rw [fitnessStep_tsb_eq]
      rcases hn with hn | hn
      · rw [hn]
      · rw [hn]
        cases hc2 : (fitnessStep fetch).ctl <;> rfl

/-- C2 witness: the empty yesterday fetch and a record lacking `ctl` both
null `ctl` and `tsb`. -/
theorem fitness_null_policy_witness :
    ((fitnessStep (.ok ([] : List WellnessY))).ctl = none ∧
      (fitnessStep (.ok ([] : List WellnessY))).tsb = none) ∧
    (fitnessStep (.ok [(⟨none, some 3, none⟩ : WellnessY)])).ctl = none ∧
    (fitnessStep (.ok [(⟨none, some 3, none⟩ : WellnessY)])).tsb = none :=
  ⟨fitness_null_policy.1 [] (Or.inl rfl),
   fitness_null_policy.1 [⟨none, some 3, none⟩]
     (Or.inr ⟨⟨none, some 3, none⟩, [], rfl, rfl⟩)⟩

end IntervalsSync
